import Mathlib

/-!
# BasePass — shallow embedding and verification

Shallow embedding of the BasePass onchain event-passport system
(`contracts/BasePass.sol` variant with the separate `EventStamp` ledger,
the variant the specification designates as canonical), together with
proofs of the specification's claims.

Modelling conventions:
* `Address` is `Nat`; `0` is the zero address.
* Solidity mappings are association lists; an absent key is the mapping's
  default value (`0`, `false`, or a struct with `exists = false`).
* `string` lengths (`bytes(s).length`) are UTF-8 byte lengths.
* Reverts are `Except.error` carrying the revert reason; a reverted call
  leaves the pre-state untouched (EVM transaction semantics), which the
  transition function `applyOp` encodes by returning the input state.
* `keccak256(abi.encodePacked(eventId, nonce, expiration, chainid))` packs
  four fixed-width words, so the encoding is injective; the hash is
  modelled collision-free as the 4-tuple itself.  An ECDSA signature is
  modelled as the pair (digest that was signed, key that signed it);
  `recover` returns the signing key on the digest that was signed and the
  zero address on every other digest — the idealisation that a signature
  over one digest does not verify against a different digest, and that a
  failed recovery never coincides with a registered (non-zero) signer.
-/

namespace BasePass

/-- Principal / account address; `0` is the zero address. -/
abbrev Address := Nat

/-- The packed claim message `(eventId, nonce, expiration, chainId)`
hashed by `claimStamp`; `abi.encodePacked` of four fixed-width words is
injective, so the keccak256 digest is modelled as the tuple itself. -/
abbrev ClaimMsg := Nat × Nat × Nat × Nat

/-- Idealised ECDSA signature: the digest it was produced over together
with the address whose key produced it. -/
structure Sig where
  signedMsg : ClaimMsg
  signedBy : Address
  deriving DecidableEq, Repr

/-- Idealised `ECDSA.recover` over the Ethereum-signed-message hash of a
digest: yields the signer on the digest the signature was produced over,
and the zero address (never a registered signer, since `createEvent`
rejects the zero address) on any other digest. -/
def recover (h : ClaimMsg) (sig : Sig) : Address :=
  if h = sig.signedMsg then sig.signedBy else 0

/-- `struct Event` from `BasePass.sol` (the `exists` flag is represented
by membership in the `events` association list). -/
structure EventRec where
  id : Nat
  name : String
  description : String
  iconUrl : String
  signer : Address
  deriving DecidableEq, Repr

/-- One minted `EventStamp` token: ERC-721 ownership plus the
`StampMetadata` struct (`eventId`, `passportId`, `timestamp`). -/
structure Stamp where
  tokenId : Nat
  owner : Address
  eventId : Nat
  passportId : Nat
  timestamp : Nat
  deriving DecidableEq, Repr

/-- `AccessControl` roles used by `EventStamp`. -/
inductive Role where
  | minter
  | admin
  deriving DecidableEq, Repr

/-- State of the `EventStamp` contract: token counter, minted stamps,
and the two `AccessControl` role member sets. -/
structure EventStampState where
  tokenIdCounter : Nat
  stamps : List Stamp
  minters : List Address
  admins : List Address
  deriving DecidableEq, Repr

/-- Log entries emitted by `BasePass`. -/
inductive LogEntry where
  | PassportMinted (owner : Address) (tokenId : Nat)
  | EventCreated (eventId : Nat) (name : String) (signer : Address)
  | StampClaimed (tokenId : Nat) (eventId : Nat) (claimer : Address)
  deriving DecidableEq, Repr

/-- State of the `BasePass` contract (plus the `EventStamp` contract it
references and its own address, the `msg.sender` of its `mintStamp`
calls). -/
structure BasePassState where
  selfAddr : Address
  tokenIdCounter : Nat
  eventIdCounter : Nat
  usedNonces : List Nat
  events : List EventRec
  lastEventCreation : List (Address × Nat)
  passports : List (Nat × Address)
  stampContract : EventStampState
  log : List LogEntry
  deriving DecidableEq, Repr

/-- ERC-721 `_ownerOf`: owner of a passport token, `none` when the token
was never minted (no burn path exists). -/
def lookupOwner : List (Nat × Address) → Nat → Option Address
  | [], _ => none
  | p :: ps, t => if p.1 = t then some p.2 else lookupOwner ps t

/-- `events[eventId]` lookup; `none` models `exists = false`. -/
def findEvent : List EventRec → Nat → Option EventRec
  | [], _ => none
  | ev :: es, i => if ev.id = i then some ev else findEvent es i

/-- `stampMetadata` / `_ownerOf` lookup on the stamp ledger. -/
def lookupStamp : List Stamp → Nat → Option Stamp
  | [], _ => none
  | st :: sts, t => if st.tokenId = t then some st else lookupStamp sts t

/-- ERC-721 `balanceOf` for passports. -/
def balanceOf (ps : List (Nat × Address)) (a : Address) : Nat :=
  ps.countP (fun p => decide (p.2 = a))

/-- `lastEventCreation[msg.sender]`; a mapping entry defaults to `0`. -/
def lastCreation : List (Address × Nat) → Address → Nat
  | [], _ => 0
  | e :: es, a => if e.1 = a then e.2 else lastCreation es a

/-- `EVENT_COOLDOWN = 1 hours`. -/
def EVENT_COOLDOWN : Nat := 3600

/-- `EventStamp.hasStampForEvent`: scan the owner's stamps for one whose
metadata records `eventId` (the Solidity loop enumerates the owner's
tokens; stamps are soulbound, so scanning all stamps filtered by owner is
the same traversal). -/
def hasStampForEvent : List Stamp → Address → Nat → Bool
  | [], _, _ => false
  | st :: sts, a, e =>
    if st.owner = a ∧ st.eventId = e then true else hasStampForEvent sts a e

/-- `EventStamp.mintStamp`: guarded by `MINTER_ROLE`; `_safeMint` rejects
the zero receiver and an already-minted token id (the soulbound `_update`
override fires on a token that has an owner). Returns the new stamp's
token id. -/
def mintStamp (sc : EventStampState) (caller toAddr : Address)
    (eventId passportId now : Nat) : Except String (EventStampState × Nat) :=
  if caller ∉ sc.minters then
    .error "AccessControlUnauthorizedAccount"
  else if toAddr = 0 then
    .error "ERC721InvalidReceiver"
  else if (lookupStamp sc.stamps sc.tokenIdCounter).isSome then
    .error "EventStamp: stamps are non-transferable (soulbound)"
  else
    .ok ({ sc with
            tokenIdCounter := sc.tokenIdCounter + 1,
            stamps := ⟨sc.tokenIdCounter, toAddr, eventId, passportId, now⟩ :: sc.stamps },
         sc.tokenIdCounter)

/-- `bytes(s).length` in Solidity: the UTF-8 byte length of the string. -/
def strLen (s : String) : Nat := s.utf8ByteSize

/-- `BasePass.mintPassport` (the restrictive variant): at most one
passport per wallet, then `_safeMint` of the next counter value (the
`_safeMint` / soulbound-`_update` guards are included for faithfulness;
they cannot fire from a fresh counter value). -/
def mintPassport (s : BasePassState) (caller : Address) :
    Except String BasePassState :=
  if balanceOf s.passports caller ≠ 0 then
    .error "Already owns a passport"
  else if caller = 0 then
    .error "ERC721InvalidReceiver"
  else if (lookupOwner s.passports s.tokenIdCounter).isSome then
    .error "BasePass: passports are non-transferable (soulbound)"
  else
    .ok { s with
          tokenIdCounter := s.tokenIdCounter + 1,
          passports := (s.tokenIdCounter, caller) :: s.passports,
          log := .PassportMinted caller s.tokenIdCounter :: s.log }

/-- `BasePass.createEvent`: rate limit, then input validation, then the
rate-limit tracker update, counter increment, storage of the immutable
`Event` record, `EventCreated` emission, and return of the new id. -/
def createEvent (s : BasePassState) (caller : Address)
    (name description iconUrl : String) (signer : Address) (now : Nat) :
    Except String (BasePassState × Nat) :=
  if now < lastCreation s.lastEventCreation caller + EVENT_COOLDOWN then
    .error "Rate limit: wait 1 hour between creating events"
  else if signer = 0 then
    .error "Invalid signer address"
  else if ¬ (0 < strLen name ∧ strLen name ≤ 100) then
    .error "Name must be 1-100 characters"
  else if ¬ (strLen description ≤ 500) then
    .error "Description must not exceed 500 characters"
  else
    .ok ({ s with
            lastEventCreation := (caller, now) :: s.lastEventCreation,
            eventIdCounter := s.eventIdCounter + 1,
            events := ⟨s.eventIdCounter, name, description, iconUrl, signer⟩ :: s.events,
            log := .EventCreated s.eventIdCounter name signer :: s.log },
         s.eventIdCounter)

/-- `BasePass.claimStamp`: the seven-step claim state machine — ownership,
event existence, duplicate stamp, nonce, expiration, signature, then the
commit (mark the nonce used and mint the stamp through `EventStamp`,
which itself can revert, undoing the nonce marking). -/
def claimStamp (s : BasePassState) (caller : Address)
    (tokenId eventId nonce expiration : Nat) (signature : Sig)
    (now chainId : Nat) : Except String BasePassState :=
  match lookupOwner s.passports tokenId with
  | none => .error "ERC721NonexistentToken"
  | some owner =>
    if owner ≠ caller then .error "Not passport owner"
    else match findEvent s.events eventId with
    | none => .error "Event does not exist"
    | some ev =>
      if hasStampForEvent s.stampContract.stamps caller eventId then
        .error "Stamp already claimed"
      else if nonce ∈ s.usedNonces then
        .error "Nonce already used"
      else if expiration < now then
        .error "Signature expired"
      else if recover (eventId, nonce, expiration, chainId) signature ≠ ev.signer then
        .error "Invalid signature"
      else
        match mintStamp s.stampContract s.selfAddr caller eventId tokenId now with
        | .error e => .error e
        | .ok (sc, _) =>
          .ok { s with
                usedNonces := nonce :: s.usedNonces,
                stampContract := sc,
                log := .StampClaimed tokenId eventId caller :: s.log }

/-- `BasePass.hasStamp`: resolves the passport owner with `ownerOf`
(which reverts on an unknown token) and then consults
`EventStamp.hasStampForEvent`. -/
def hasStamp (s : BasePassState) (tokenId eventId : Nat) :
    Except String Bool :=
  match lookupOwner s.passports tokenId with
  | none => .error "ERC721NonexistentToken"
  | some owner => .ok (hasStampForEvent s.stampContract.stamps owner eventId)

/-- `BasePass.getEvent`. -/
def getEvent (s : BasePassState) (eventId : Nat) : Except String EventRec :=
  match findEvent s.events eventId with
  | none => .error "Event does not exist"
  | some ev => .ok ev

/-- The rate-limit view derivable without mutation from the public
`lastEventCreation` getter and the `EVENT_COOLDOWN` constant: seconds
remaining until the caller may create another event. -/
def remainingCooldown (s : BasePassState) (caller : Address) (now : Nat) : Nat :=
  lastCreation s.lastEventCreation caller + EVENT_COOLDOWN - now

/-- ERC-721 `transferFrom` on the passport token: the zero-receiver check,
then `_update`, whose `BasePass` override reverts on every token that has
an owner; a token without an owner fails `transferFrom`'s own existence
check. No path mutates state. -/
def transferPassport (s : BasePassState)
    (_caller _fromAddr toAddr : Address) (tokenId : Nat) :
    Except String BasePassState :=
  if toAddr = 0 then .error "ERC721InvalidReceiver"
  else match lookupOwner s.passports tokenId with
  | some _ => .error "BasePass: passports are non-transferable (soulbound)"
  | none => .error "ERC721NonexistentToken"

/-- ERC-721 `transferFrom` on the stamp token, with the `EventStamp`
soulbound `_update` override: no path mutates state. -/
def transferStamp (sc : EventStampState)
    (_caller _fromAddr toAddr : Address) (tokenId : Nat) :
    Except String EventStampState :=
  if toAddr = 0 then .error "ERC721InvalidReceiver"
  else match lookupStamp sc.stamps tokenId with
  | some _ => .error "EventStamp: stamps are non-transferable (soulbound)"
  | none => .error "ERC721NonexistentToken"

/-- Members of a role. -/
def roleMembers (sc : EventStampState) : Role → List Address
  | .minter => sc.minters
  | .admin => sc.admins

/-- `AccessControl.grantRole` on `EventStamp` (the admin role administers
both roles). -/
def grantRole (sc : EventStampState) (caller : Address) (role : Role)
    (account : Address) : Except String EventStampState :=
  if caller ∉ sc.admins then .error "AccessControlUnauthorizedAccount"
  else if account ∈ roleMembers sc role then .ok sc
  else match role with
  | .minter => .ok { sc with minters := account :: sc.minters }
  | .admin => .ok { sc with admins := account :: sc.admins }

/-- `AccessControl.revokeRole` on `EventStamp`. -/
def revokeRole (sc : EventStampState) (caller : Address) (role : Role)
    (account : Address) : Except String EventStampState :=
  if caller ∉ sc.admins then .error "AccessControlUnauthorizedAccount"
  else match role with
  | .minter => .ok { sc with minters := sc.minters.filter (fun a => a ≠ account) }
  | .admin => .ok { sc with admins := sc.admins.filter (fun a => a ≠ account) }

/-- The operations the deployed system exposes to arbitrary callers.
The approval operations (`approve`, `setApprovalForAll`) touch only the
approval maps and never `_update`, so they are omitted along with the
other pure views. -/
inductive Op where
  | mintPassport (caller : Address)
  | createEvent (caller : Address) (name description iconUrl : String)
      (signer : Address) (now : Nat)
  | claimStamp (caller : Address) (tokenId eventId nonce expiration : Nat)
      (signature : Sig) (now chainId : Nat)
  | transferPassport (caller fromAddr toAddr : Address) (tokenId : Nat)
  | transferStamp (caller fromAddr toAddr : Address) (tokenId : Nat)
  | mintStampDirect (caller toAddr : Address) (eventId passportId now : Nat)
  | grantRole (caller : Address) (role : Role) (account : Address)
  | revokeRole (caller : Address) (role : Role) (account : Address)
  deriving DecidableEq, Repr

/-- Run one operation: a revert (`Except.error`) leaves the state exactly
as it was (EVM transaction semantics). -/
def applyOp (s : BasePassState) : Op → BasePassState
  | .mintPassport caller =>
    match mintPassport s caller with
    | .ok s' => s' | .error _ => s
  | .createEvent caller name description iconUrl signer now =>
    match createEvent s caller name description iconUrl signer now with
    | .ok (s', _) => s' | .error _ => s
  | .claimStamp caller tokenId eventId nonce expiration signature now chainId =>
    match claimStamp s caller tokenId eventId nonce expiration signature now chainId with
    | .ok s' => s' | .error _ => s
  | .transferPassport caller fromAddr toAddr tokenId =>
    match transferPassport s caller fromAddr toAddr tokenId with
    | .ok s' => s' | .error _ => s
  | .transferStamp caller fromAddr toAddr tokenId =>
    match transferStamp s.stampContract caller fromAddr toAddr tokenId with
    | .ok sc => { s with stampContract := sc } | .error _ => s
  | .mintStampDirect caller toAddr eventId passportId now =>
    match mintStamp s.stampContract caller toAddr eventId passportId now with
    | .ok (sc, _) => { s with stampContract := sc } | .error _ => s
  | .grantRole caller role account =>
    match grantRole s.stampContract caller role account with
    | .ok sc => { s with stampContract := sc } | .error _ => s
  | .revokeRole caller role account =>
    match revokeRole s.stampContract caller role account with
    | .ok sc => { s with stampContract := sc } | .error _ => s

/-- Run a sequence of operations. -/
def applyOps (s : BasePassState) (ops : List Op) : BasePassState :=
  ops.foldl applyOp s

/-- The freshly deployed system (`deploy.ts`): both counters start at 1,
all ledgers empty; the `EventStamp` constructor grants `MINTER_ROLE` and
`DEFAULT_ADMIN_ROLE` to the deployer, and the deploy script additionally
grants `MINTER_ROLE` to the `BasePass` contract (never revoking the
deployer's). -/
def initState (deployer selfAddr : Address) : BasePassState :=
  { selfAddr := selfAddr
    tokenIdCounter := 1
    eventIdCounter := 1
    usedNonces := []
    events := []
    lastEventCreation := []
    passports := []
    stampContract :=
      { tokenIdCounter := 1
        stamps := []
        minters := [deployer, selfAddr]
        admins := [deployer] }
    log := [] }

deriving instance DecidableEq for Except

/-! ## Characterisation lemmas for the individual operations -/

/-- What a successful `mintPassport` did, and what it required. -/
theorem mintPassport_ok {s s' : BasePassState} {caller : Address}
    (h : mintPassport s caller = .ok s') :
    s'.passports = (s.tokenIdCounter, caller) :: s.passports ∧
    s'.tokenIdCounter = s.tokenIdCounter + 1 ∧
    s'.eventIdCounter = s.eventIdCounter ∧
    s'.usedNonces = s.usedNonces ∧
    s'.events = s.events ∧
    s'.lastEventCreation = s.lastEventCreation ∧
    s'.stampContract = s.stampContract ∧
    s'.selfAddr = s.selfAddr ∧
    balanceOf s.passports caller = 0 := by
  unfold mintPassport at h
  split at h
  · simp at h
  · split at h
    · simp at h
    · split at h
      · simp at h
      · rename_i hbal _ _
        cases h
        refine ⟨rfl, rfl, rfl, rfl, rfl, rfl, rfl, rfl, ?_⟩
        simpa using hbal

/-- A caller who already holds a passport is rejected. -/
theorem mintPassport_already {s : BasePassState} {caller : Address}
    (h : balanceOf s.passports caller ≠ 0) :
    mintPassport s caller = .error "Already owns a passport" := by
  unfold mintPassport
  rw [if_pos h]

/-- What a successful `createEvent` did, and what it required. -/
theorem createEvent_ok {s s' : BasePassState} {caller signer : Address}
    {name description iconUrl : String} {now i : Nat}
    (h : createEvent s caller name description iconUrl signer now = .ok (s', i)) :
    i = s.eventIdCounter ∧
    s'.eventIdCounter = s.eventIdCounter + 1 ∧
    s'.events = ⟨s.eventIdCounter, name, description, iconUrl, signer⟩ :: s.events ∧
    s'.lastEventCreation = (caller, now) :: s.lastEventCreation ∧
    s'.log = .EventCreated s.eventIdCounter name signer :: s.log ∧
    s'.passports = s.passports ∧
    s'.tokenIdCounter = s.tokenIdCounter ∧
    s'.usedNonces = s.usedNonces ∧
    s'.stampContract = s.stampContract ∧
    s'.selfAddr = s.selfAddr ∧
    lastCreation s.lastEventCreation caller + EVENT_COOLDOWN ≤ now ∧
    signer ≠ 0 ∧ 0 < strLen name ∧ strLen name ≤ 100 ∧ strLen description ≤ 500 := by
  unfold createEvent at h
  split at h
  · simp at h
  · split at h
    · simp at h
    · split at h
      · simp at h
      · split at h
        · simp at h
        · rename_i hrate hsig hname hdesc
          cases h
          rw [not_not] at hname hdesc
          refine ⟨rfl, rfl, rfl, rfl, rfl, rfl, rfl, rfl, rfl, rfl, ?_, hsig,
            hname.1, hname.2, hdesc⟩
          omega

/-- `createEvent` succeeds exactly when the cooldown has elapsed and the
inputs validate. -/
theorem createEvent_isOk_iff (s : BasePassState) (caller signer : Address)
    (name description iconUrl : String) (now : Nat) :
    (createEvent s caller name description iconUrl signer now).isOk = true ↔
      (lastCreation s.lastEventCreation caller + EVENT_COOLDOWN ≤ now ∧
       signer ≠ 0 ∧ 0 < strLen name ∧ strLen name ≤ 100 ∧
       strLen description ≤ 500) := by
  unfold createEvent
  split
  · rename_i hrate
    simp only [Except.isOk, Except.toBool]
    constructor
    · intro h; cases h
    · intro h; omega
  · split
    · rename_i hsig
      simp only [Except.isOk, Except.toBool]
      constructor
      · intro h; cases h
      · intro h; exact absurd h.2.1 (by simp [hsig])
    · split
      · rename_i hname
        simp only [Except.isOk, Except.toBool]
        constructor
        · intro h; cases h
        · intro h; exact absurd ⟨h.2.2.1, h.2.2.2.1⟩ hname
      · split
        · rename_i hdesc
          simp only [Except.isOk, Except.toBool]
          constructor
          · intro h; cases h
          · intro h; exact absurd h.2.2.2.2 hdesc
        · rename_i hrate hsig hname hdesc
          simp only [Except.isOk, Except.toBool, true_iff]
          push_neg at hname hdesc
          refine ⟨by omega, hsig, ?_, ?_, by omega⟩ <;> omega

/-- What a successful `mintStamp` did, and what it required. -/
theorem mintStamp_ok {sc sc' : EventStampState} {caller toAddr : Address}
    {eventId passportId now k : Nat}
    (h : mintStamp sc caller toAddr eventId passportId now = .ok (sc', k)) :
    k = sc.tokenIdCounter ∧
    sc'.tokenIdCounter = sc.tokenIdCounter + 1 ∧
    sc'.stamps = ⟨sc.tokenIdCounter, toAddr, eventId, passportId, now⟩ :: sc.stamps ∧
    sc'.minters = sc.minters ∧
    sc'.admins = sc.admins ∧
    caller ∈ sc.minters ∧ toAddr ≠ 0 ∧
    lookupStamp sc.stamps sc.tokenIdCounter = none := by
  unfold mintStamp at h
  split at h
  · simp at h
  · split at h
    · simp at h
    · split at h
      · simp at h
      · rename_i hrole hzero hfresh
        cases h
        rw [not_not] at hrole
        refine ⟨rfl, rfl, rfl, rfl, rfl, hrole, hzero, ?_⟩
        exact Option.not_isSome_iff_eq_none.mp hfresh

/-- What a successful `claimStamp` did, and what it required: all seven
checks held, exactly one nonce was consumed, and exactly one stamp (owned
by the caller, recording this event and passport) was created. -/
theorem claimStamp_ok {s s' : BasePassState} {caller : Address}
    {tokenId eventId nonce expiration : Nat} {signature : Sig} {now chainId : Nat}
    (h : claimStamp s caller tokenId eventId nonce expiration signature now chainId = .ok s') :
    lookupOwner s.passports tokenId = some caller ∧
    (∃ ev, findEvent s.events eventId = some ev ∧
      recover (eventId, nonce, expiration, chainId) signature = ev.signer) ∧
    hasStampForEvent s.stampContract.stamps caller eventId = false ∧
    nonce ∉ s.usedNonces ∧
    now ≤ expiration ∧
    s.selfAddr ∈ s.stampContract.minters ∧ caller ≠ 0 ∧
    s'.usedNonces = nonce :: s.usedNonces ∧
    s'.stampContract.stamps =
      ⟨s.stampContract.tokenIdCounter, caller, eventId, tokenId, now⟩ ::
        s.stampContract.stamps ∧
    s'.stampContract.tokenIdCounter = s.stampContract.tokenIdCounter + 1 ∧
    s'.stampContract.minters = s.stampContract.minters ∧
    s'.stampContract.admins = s.stampContract.admins ∧
    s'.passports = s.passports ∧
    s'.events = s.events ∧
    s'.lastEventCreation = s.lastEventCreation ∧
    s'.tokenIdCounter = s.tokenIdCounter ∧
    s'.eventIdCounter = s.eventIdCounter ∧
    s'.selfAddr = s.selfAddr ∧
    s'.log = .StampClaimed tokenId eventId caller :: s.log := by
  unfold claimStamp at h
  split at h
  · simp at h
  · rename_i owner hov
    split at h
    · simp at h
    · rename_i hosame
      split at h
      · simp at h
      · rename_i ev hev
        split at h
        · simp at h
        · split at h
          · simp at h
          · split at h
            · simp at h
            · split at h
              · simp at h
              · rename_i hdup hnonce hexp hsig
                split at h
                · simp at h
                · rename_i res sc k hms
                  cases h
                  rw [not_not] at hosame
                  subst hosame
                  rw [not_not] at hsig
                  obtain ⟨hk, hc, hst, hm, ha, hrole, hnz, hfresh⟩ := mintStamp_ok hms
                  exact ⟨hov, ⟨ev, hev, hsig⟩, by simpa using hdup, hnonce,
                    by omega, hrole, hnz, rfl, by simp [hst], by simp [hc],
                    by simp [hm], by simp [ha], rfl, rfl, rfl, rfl, rfl, rfl, rfl⟩

/-- The cheap checks that precede the expiration and signature checks
(ownership, event existence, duplicate stamp, nonce). -/
def preClaimChecks (s : BasePassState) (caller : Address)
    (tokenId eventId nonce : Nat) : Prop :=
  lookupOwner s.passports tokenId = some caller ∧
  (findEvent s.events eventId).isSome = true ∧
  hasStampForEvent s.stampContract.stamps caller eventId = false ∧
  nonce ∉ s.usedNonces

instance (s : BasePassState) (caller : Address) (tokenId eventId nonce : Nat) :
    Decidable (preClaimChecks s caller tokenId eventId nonce) := by
  unfold preClaimChecks; infer_instance

/-- Every error `mintStamp` can produce. -/
theorem mintStamp_error_mem {sc : EventStampState} {caller toAddr : Address}
    {eventId passportId now : Nat} {e : String}
    (h : mintStamp sc caller toAddr eventId passportId now = .error e) :
    e = "AccessControlUnauthorizedAccount" ∨ e = "ERC721InvalidReceiver" ∨
    e = "EventStamp: stamps are non-transferable (soulbound)" := by
  unfold mintStamp at h
  split at h
  · exact Or.inl (Except.error.inj h).symm
  · split at h
    · exact Or.inr (Or.inl (Except.error.inj h).symm)
    · split at h
      · exact Or.inr (Or.inr (Except.error.inj h).symm)
      · simp at h

/-- A claim on a passport the claimer already stamped for this event is
rejected by the duplicate check (which precedes the nonce check). -/
theorem claimStamp_alreadyClaimed {s : BasePassState} {caller : Address}
    {tokenId eventId nonce expiration : Nat} {signature : Sig} {now chainId : Nat}
    (hov : lookupOwner s.passports tokenId = some caller)
    (hev : (findEvent s.events eventId).isSome = true)
    (hdup : hasStampForEvent s.stampContract.stamps caller eventId = true) :
    claimStamp s caller tokenId eventId nonce expiration signature now chainId =
      .error "Stamp already claimed" := by
  obtain ⟨ev, hev'⟩ := Option.isSome_iff_exists.mp hev
  unfold claimStamp
  rw [hov, hev']
  simp [hdup]

/-- A claim presenting an already-consumed nonce, once the three checks
before the nonce check pass, is rejected by the nonce check. -/
theorem claimStamp_nonceUsed {s : BasePassState} {caller : Address}
    {tokenId eventId nonce expiration : Nat} {signature : Sig} {now chainId : Nat}
    (hov : lookupOwner s.passports tokenId = some caller)
    (hev : (findEvent s.events eventId).isSome = true)
    (hdup : hasStampForEvent s.stampContract.stamps caller eventId = false)
    (hused : nonce ∈ s.usedNonces) :
    claimStamp s caller tokenId eventId nonce expiration signature now chainId =
      .error "Nonce already used" := by
  obtain ⟨ev, hev'⟩ := Option.isSome_iff_exists.mp hev
  unfold claimStamp
  rw [hov, hev']
  simp [hdup, hused]

/-- An expired claim, once the four cheap checks pass, is rejected by the
expiration check whatever the signature is. -/
theorem claimStamp_expired {s : BasePassState} {caller : Address}
    {tokenId eventId nonce expiration : Nat} {signature : Sig} {now chainId : Nat}
    (hpre : preClaimChecks s caller tokenId eventId nonce)
    (hexp : expiration < now) :
    claimStamp s caller tokenId eventId nonce expiration signature now chainId =
      .error "Signature expired" := by
  obtain ⟨hov, hev, hdup, hnonce⟩ := hpre
  obtain ⟨ev, hev'⟩ := Option.isSome_iff_exists.mp hev
  unfold claimStamp
  rw [hov, hev']
  simp [hdup, hnonce, hexp]

/-- A claim whose recovered signer differs from the event's registered
signer, once the five earlier checks pass, is rejected by the signature
check. -/
theorem claimStamp_invalidSig {s : BasePassState} {caller : Address}
    {tokenId eventId nonce expiration : Nat} {signature : Sig} {now chainId : Nat}
    {ev : EventRec}
    (hov : lookupOwner s.passports tokenId = some caller)
    (hev : findEvent s.events eventId = some ev)
    (hdup : hasStampForEvent s.stampContract.stamps caller eventId = false)
    (hnonce : nonce ∉ s.usedNonces)
    (hexp : now ≤ expiration)
    (hsig : recover (eventId, nonce, expiration, chainId) signature ≠ ev.signer) :
    claimStamp s caller tokenId eventId nonce expiration signature now chainId =
      .error "Invalid signature" := by
  unfold claimStamp
  rw [hov, hev]
  simp [hdup, hnonce, Nat.not_lt.mpr hexp, hsig]

/-- When every check holds (including the commit-side `MINTER_ROLE`,
non-zero receiver and fresh-token conditions), `claimStamp` commits. -/
theorem claimStamp_success {s : BasePassState} {caller : Address}
    {tokenId eventId nonce expiration : Nat} {signature : Sig} {now chainId : Nat}
    {ev : EventRec}
    (hov : lookupOwner s.passports tokenId = some caller)
    (hev : findEvent s.events eventId = some ev)
    (hdup : hasStampForEvent s.stampContract.stamps caller eventId = false)
    (hnonce : nonce ∉ s.usedNonces)
    (hexp : now ≤ expiration)
    (hsig : recover (eventId, nonce, expiration, chainId) signature = ev.signer)
    (hrole : s.selfAddr ∈ s.stampContract.minters)
    (hnz : caller ≠ 0)
    (hfresh : lookupStamp s.stampContract.stamps s.stampContract.tokenIdCounter = none) :
    (claimStamp s caller tokenId eventId nonce expiration signature now chainId).isOk
      = true := by
  unfold claimStamp
  rw [hov, hev]
  simp only [ne_eq, not_true_eq_false, if_false, hdup, Bool.false_eq_true,
    hnonce, Nat.not_lt.mpr hexp, hsig, not_false_eq_true, if_neg, ite_false]
  unfold mintStamp
  rw [if_neg (by simpa using hrole), if_neg hnz, if_neg (by simp [hfresh])]
  rfl

/-- `claimStamp` is rejected by the expiration check exactly when the
four cheaper checks pass and the current time exceeds `expiration`. -/
theorem claimStamp_expired_iff (s : BasePassState) (caller : Address)
    (tokenId eventId nonce expiration : Nat) (signature : Sig) (now chainId : Nat) :
    claimStamp s caller tokenId eventId nonce expiration signature now chainId =
        .error "Signature expired" ↔
      preClaimChecks s caller tokenId eventId nonce ∧ expiration < now := by
  constructor
  · intro h
    unfold claimStamp at h
    split at h
    · exact absurd (Except.error.inj h) (by decide)
    · rename_i owner hov
      split at h
      · exact absurd (Except.error.inj h) (by decide)
      · rename_i hosame
        rw [not_not] at hosame
        subst hosame
        split at h
        · exact absurd (Except.error.inj h) (by decide)
        · rename_i ev hev
          split at h
          · exact absurd (Except.error.inj h) (by decide)
          · split at h
            · exact absurd (Except.error.inj h) (by decide)
            · split at h
              · rename_i hdup hnonce hexp
                exact ⟨⟨hov, by simp [hev], by simpa using hdup, hnonce⟩, hexp⟩
              · split at h
                · exact absurd (Except.error.inj h) (by decide)
                · split at h
                  · rename_i hms
                    rcases mintStamp_error_mem hms with h1 | h1 | h1 <;>
                      (subst h1; exact absurd (Except.error.inj h) (by decide))
                  · simp at h
  · intro ⟨hpre, hexp⟩
    exact claimStamp_expired hpre hexp

/-- Every error `claimStamp` can produce is one of the seven checks'
rejection reasons (the ownership check splits into the unknown-token and
wrong-owner reasons, and the commit step into the three `mintStamp`
reasons). -/
theorem claimStamp_error_mem {s : BasePassState} {caller : Address}
    {tokenId eventId nonce expiration : Nat} {signature : Sig} {now chainId : Nat}
    {e : String}
    (h : claimStamp s caller tokenId eventId nonce expiration signature now chainId =
      .error e) :
    e ∈ ["ERC721NonexistentToken", "Not passport owner", "Event does not exist",
         "Stamp already claimed", "Nonce already used", "Signature expired",
         "Invalid signature", "AccessControlUnauthorizedAccount",
         "ERC721InvalidReceiver",
         "EventStamp: stamps are non-transferable (soulbound)"] := by
  unfold claimStamp at h
  split at h
  · simp [← Except.error.inj h]
  · split at h
    · simp [← Except.error.inj h]
    · split at h
      · simp [← Except.error.inj h]
      · split at h
        · simp [← Except.error.inj h]
        · split at h
          · simp [← Except.error.inj h]
          · split at h
            · simp [← Except.error.inj h]
            · split at h
              · simp [← Except.error.inj h]
              · split at h
                · rename_i hms
                  rcases mintStamp_error_mem hms with h1 | h1 | h1 <;>
                    simp [← Except.error.inj h, h1]
                · simp at h

/-- Passport transfers never succeed: the soulbound `_update` override
rejects every token that has an owner, and a token without an owner fails
the existence check. -/
theorem transferPassport_not_ok (s : BasePassState)
    (caller fromAddr toAddr : Address) (tokenId : Nat) :
    (transferPassport s caller fromAddr toAddr tokenId).isOk = false := by
  unfold transferPassport
  split
  · rfl
  · split <;> rfl

/-- Stamp transfers never succeed. -/
theorem transferStamp_not_ok (sc : EventStampState)
    (caller fromAddr toAddr : Address) (tokenId : Nat) :
    (transferStamp sc caller fromAddr toAddr tokenId).isOk = false := by
  unfold transferStamp
  split
  · rfl
  · split <;> rfl

/-- Role administration never touches the stamp ledger or its counter. -/
theorem grantRole_ok {sc sc' : EventStampState} {caller : Address} {role : Role}
    {account : Address} (h : grantRole sc caller role account = .ok sc') :
    sc'.stamps = sc.stamps ∧ sc'.tokenIdCounter = sc.tokenIdCounter := by
  unfold grantRole at h
  split at h
  · simp at h
  · split at h
    · cases h; exact ⟨rfl, rfl⟩
    · cases role <;> simp only at h <;> (cases h; exact ⟨rfl, rfl⟩)

/-- Role revocation never touches the stamp ledger or its counter. -/
theorem revokeRole_ok {sc sc' : EventStampState} {caller : Address} {role : Role}
    {account : Address} (h : revokeRole sc caller role account = .ok sc') :
    sc'.stamps = sc.stamps ∧ sc'.tokenIdCounter = sc.tokenIdCounter := by
  unfold revokeRole at h
  split at h
  · simp at h
  · cases role <;> simp only at h <;> (cases h; exact ⟨rfl, rfl⟩)

/-! ## Structural facts about one transition -/

/-- One operation either leaves the passport ledger unchanged (and never
shrinks the token counter) or appends exactly one passport carrying the
fresh counter value, minted to a wallet whose balance was zero. -/
theorem applyOp_passports (s : BasePassState) (op : Op) :
    ((applyOp s op).passports = s.passports ∧
      s.tokenIdCounter ≤ (applyOp s op).tokenIdCounter) ∨
    ∃ c, (applyOp s op).passports = (s.tokenIdCounter, c) :: s.passports ∧
      (applyOp s op).tokenIdCounter = s.tokenIdCounter + 1 ∧
      balanceOf s.passports c = 0 := by
  cases op with
  | mintPassport c =>
    rcases h : mintPassport s c with e | s'
    · left; simp [applyOp, h]
    · right
      obtain ⟨hp, ht, _, _, _, _, _, _, hbal⟩ := mintPassport_ok h
      exact ⟨c, by simp [applyOp, h, hp], by simp [applyOp, h, ht], hbal⟩
  | createEvent c n d i sg t =>
    rcases h : createEvent s c n d i sg t with e | p
    · left; simp [applyOp, h]
    · left
      obtain ⟨s', k⟩ := p
      obtain ⟨_, _, _, _, _, hp, ht, _⟩ := createEvent_ok h
      simp [applyOp, h, hp, ht]
  | claimStamp c tk ev n x sg t ch =>
    rcases h : claimStamp s c tk ev n x sg t ch with e | s'
    · left; simp [applyOp, h]
    · left
      obtain ⟨_, _, _, _, _, _, _, _, _, _, _, _, hp, _, _, ht, _⟩ := claimStamp_ok h
      simp [applyOp, h, hp, ht]
  | transferPassport c f r tk =>
    rcases h : transferPassport s c f r tk with e | s'
    · left; simp [applyOp, h]
    · have := transferPassport_not_ok s c f r tk
      rw [h] at this
      simp [Except.isOk, Except.toBool] at this
  | transferStamp c f r tk =>
    left
    rcases h : transferStamp s.stampContract c f r tk with e | sc <;>
      simp [applyOp, h]
  | mintStampDirect c r ev p t =>
    left
    rcases h : mintStamp s.stampContract c r ev p t with e | q <;>
      simp [applyOp, h]
  | grantRole c role a =>
    left
    rcases h : grantRole s.stampContract c role a with e | sc <;>
      simp [applyOp, h]
  | revokeRole c role a =>
    left
    rcases h : revokeRole s.stampContract c role a with e | sc <;>
      simp [applyOp, h]

/-- One operation either leaves the stamp ledger unchanged (and never
shrinks its counter) or appends exactly one stamp carrying the fresh
counter value. -/
theorem applyOp_stamps (s : BasePassState) (op : Op) :
    ((applyOp s op).stampContract.stamps = s.stampContract.stamps ∧
      s.stampContract.tokenIdCounter ≤ (applyOp s op).stampContract.tokenIdCounter) ∨
    ∃ st : Stamp, st.tokenId = s.stampContract.tokenIdCounter ∧
      (applyOp s op).stampContract.stamps = st :: s.stampContract.stamps ∧
      (applyOp s op).stampContract.tokenIdCounter =
        s.stampContract.tokenIdCounter + 1 := by
  cases op with
  | mintPassport c =>
    left
    rcases h : mintPassport s c with e | s'
    · simp [applyOp, h]
    · obtain ⟨_, _, _, _, _, _, hsc, _⟩ := mintPassport_ok h
      simp [applyOp, h, hsc]
  | createEvent c n d i sg t =>
    left
    rcases h : createEvent s c n d i sg t with e | p
    · simp [applyOp, h]
    · obtain ⟨s', k⟩ := p
      obtain ⟨_, _, _, _, _, _, _, _, hsc, _⟩ := createEvent_ok h
      simp [applyOp, h, hsc]
  | claimStamp c tk ev n x sg t ch =>
    rcases h : claimStamp s c tk ev n x sg t ch with e | s'
    · left; simp [applyOp, h]
    · right
      obtain ⟨_, _, _, _, _, _, _, _, hst, hct, _⟩ := claimStamp_ok h
      exact ⟨⟨s.stampContract.tokenIdCounter, c, ev, tk, t⟩, rfl,
        by simp [applyOp, h, hst], by simp [applyOp, h, hct]⟩
  | transferPassport c f r tk =>
    left
    rcases h : transferPassport s c f r tk with e | s'
    · simp [applyOp, h]
    · have := transferPassport_not_ok s c f r tk
      rw [h] at this
      simp [Except.isOk, Except.toBool] at this
  | transferStamp c f r tk =>
    left
    rcases h : transferStamp s.stampContract c f r tk with e | sc
    · simp [applyOp, h]
    · have := transferStamp_not_ok s.stampContract c f r tk
      rw [h] at this
      simp [Except.isOk, Except.toBool] at this
  | mintStampDirect c r ev p t =>
    rcases h : mintStamp s.stampContract c r ev p t with e | q
    · left; simp [applyOp, h]
    · right
      obtain ⟨sc, k⟩ := q
      obtain ⟨hk, hct, hst, _⟩ := mintStamp_ok h
      exact ⟨⟨s.stampContract.tokenIdCounter, r, ev, p, t⟩, rfl,
        by simp [applyOp, h, hst], by simp [applyOp, h, hct]⟩
  | grantRole c role a =>
    left
    rcases h : grantRole s.stampContract c role a with e | sc
    · simp [applyOp, h]
    · obtain ⟨h1, h2⟩ := grantRole_ok h
      simp [applyOp, h, h1, h2]
  | revokeRole c role a =>
    left
    rcases h : revokeRole s.stampContract c role a with e | sc
    · simp [applyOp, h]
    · obtain ⟨h1, h2⟩ := revokeRole_ok h
      simp [applyOp, h, h1, h2]

/-! ## Reachability invariants -/

/-- Counter freshness: every minted passport and stamp carries an id
strictly below its contract's counter (both counters start at 1 and only
the mint paths consume them). -/
def Fresh (s : BasePassState) : Prop :=
  (∀ p ∈ s.passports, p.1 < s.tokenIdCounter) ∧
  (∀ st ∈ s.stampContract.stamps, st.tokenId < s.stampContract.tokenIdCounter)

theorem fresh_init (deployer selfAddr : Address) :
    Fresh (initState deployer selfAddr) := by
  constructor <;> simp [initState]

theorem fresh_applyOp {s : BasePassState} (hF : Fresh s) (op : Op) :
    Fresh (applyOp s op) := by
  constructor
  · rcases applyOp_passports s op with ⟨hp, hc⟩ | ⟨c, hp, hc, _⟩
    · rw [hp]
      intro p hm
      exact lt_of_lt_of_le (hF.1 p hm) hc
    · rw [hp, hc]
      intro p hm
      rcases List.mem_cons.mp hm with h | h
      · subst h; omega
      · exact Nat.lt_succ_of_lt (hF.1 p h)
  · rcases applyOp_stamps s op with ⟨hp, hc⟩ | ⟨st, hid, hp, hc⟩
    · rw [hp]
      intro q hm
      exact lt_of_lt_of_le (hF.2 q hm) hc
    · rw [hp, hc]
      intro q hm
      rcases List.mem_cons.mp hm with h | h
      · subst h; omega
      · exact Nat.lt_succ_of_lt (hF.2 q h)

theorem fresh_applyOps {s : BasePassState} (hF : Fresh s) (ops : List Op) :
    Fresh (applyOps s ops) := by
  induction ops generalizing s with
  | nil => exact hF
  | cons op ops ih => exact ih (fresh_applyOp hF op)

/-- A successful owner lookup is witnessed by a ledger entry. -/
theorem lookupOwner_mem {ps : List (Nat × Address)} {t : Nat} {a : Address}
    (h : lookupOwner ps t = some a) : ∃ p ∈ ps, p.1 = t ∧ p.2 = a := by
  induction ps with
  | nil => simp [lookupOwner] at h
  | cons p ps ih =>
    unfold lookupOwner at h
    split at h
    · rename_i hk
      cases h
      exact ⟨p, List.mem_cons_self p ps, hk, rfl⟩
    · obtain ⟨q, hm, hq⟩ := ih h
      exact ⟨q, List.mem_cons_of_mem p hm, hq⟩

/-- A successful stamp lookup is witnessed by a ledger entry. -/
theorem lookupStamp_mem {sts : List Stamp} {t : Nat} {st : Stamp}
    (h : lookupStamp sts t = some st) : st ∈ sts ∧ st.tokenId = t := by
  induction sts with
  | nil => simp [lookupStamp] at h
  | cons q sts ih =>
    unfold lookupStamp at h
    split at h
    · rename_i hk
      injection h with h2
      subst h2
      exact ⟨List.mem_cons_self _ _, hk⟩
    · obtain ⟨hm, hq⟩ := ih h
      exact ⟨List.mem_cons_of_mem q hm, hq⟩

/-- Once minted, a passport's recorded owner survives any operation. -/
theorem owner_persists_applyOp {s : BasePassState} (hF : Fresh s)
    {t : Nat} {a : Address} (h : lookupOwner s.passports t = some a) (op : Op) :
    lookupOwner (applyOp s op).passports t = some a := by
  rcases applyOp_passports s op with ⟨hp, _⟩ | ⟨c, hp, _, _⟩
  · rw [hp]; exact h
  · rw [hp]
    obtain ⟨p, hm, h1, _⟩ := lookupOwner_mem h
    have : t < s.tokenIdCounter := h1 ▸ hF.1 p hm
    unfold lookupOwner
    rw [if_neg (by omega)]
    exact h

/-- Once minted, a passport's recorded owner survives any sequence of
operations. -/
theorem owner_persists_applyOps {s : BasePassState} (hF : Fresh s)
    {t : Nat} {a : Address} (h : lookupOwner s.passports t = some a)
    (ops : List Op) :
    lookupOwner (applyOps s ops).passports t = some a := by
  induction ops generalizing s with
  | nil => exact h
  | cons op ops ih =>
    exact ih (fresh_applyOp hF op) (owner_persists_applyOp hF h op)

/-- Once minted, a stamp's full record — owner included — survives any
operation. -/
theorem stamp_persists_applyOp {s : BasePassState} (hF : Fresh s)
    {t : Nat} {st : Stamp} (h : lookupStamp s.stampContract.stamps t = some st)
    (op : Op) :
    lookupStamp (applyOp s op).stampContract.stamps t = some st := by
  rcases applyOp_stamps s op with ⟨hp, _⟩ | ⟨q, hid, hp, _⟩
  · rw [hp]; exact h
  · rw [hp]
    obtain ⟨hm, h1⟩ := lookupStamp_mem h
    have : t < s.stampContract.tokenIdCounter := h1 ▸ hF.2 st hm
    unfold lookupStamp
    rw [if_neg (by omega)]
    exact h

/-- Once minted, a stamp's full record survives any sequence of
operations. -/
theorem stamp_persists_applyOps {s : BasePassState} (hF : Fresh s)
    {t : Nat} {st : Stamp} (h : lookupStamp s.stampContract.stamps t = some st)
    (ops : List Op) :
    lookupStamp (applyOps s ops).stampContract.stamps t = some st := by
  induction ops generalizing s with
  | nil => exact h
  | cons op ops ih =>
    exact ih (fresh_applyOp hF op) (stamp_persists_applyOp hF h op)

/-- Balances of the passport ledger after prepending one entry. -/
theorem balanceOf_cons (t : Nat) (c : Address) (ps : List (Nat × Address))
    (a : Address) :
    balanceOf ((t, c) :: ps) a = balanceOf ps a + if c = a then 1 else 0 := by
  simp [balanceOf, List.countP_cons]

/-- No operation lowers a wallet's passport balance. -/
theorem balance_mono_applyOp (s : BasePassState) (op : Op) (a : Address) :
    balanceOf s.passports a ≤ balanceOf (applyOp s op).passports a := by
  rcases applyOp_passports s op with ⟨hp, _⟩ | ⟨c, hp, _, _⟩
  · rw [hp]
  · rw [hp, balanceOf_cons]
    omega

theorem balance_mono_applyOps (s : BasePassState) (ops : List Op) (a : Address) :
    balanceOf s.passports a ≤ balanceOf (applyOps s ops).passports a := by
  induction ops generalizing s with
  | nil => exact le_refl _
  | cons op ops ih =>
    exact le_trans (balance_mono_applyOp s op a) (ih (applyOp s op))

/-- The at-most-one-passport bound is preserved by every operation. -/
theorem balance_le_one_applyOp {s : BasePassState}
    (h : ∀ b, balanceOf s.passports b ≤ 1) (op : Op) :
    ∀ b, balanceOf (applyOp s op).passports b ≤ 1 := by
  intro b
  rcases applyOp_passports s op with ⟨hp, _⟩ | ⟨c, hp, _, hbal⟩
  · rw [hp]; exact h b
  · rw [hp, balanceOf_cons]
    by_cases hc : c = b
    · subst hc
      rw [hbal]
      simp
    · rw [if_neg hc]
      simpa using h b

theorem balance_le_one_applyOps {s : BasePassState}
    (h : ∀ b, balanceOf s.passports b ≤ 1) (ops : List Op) :
    ∀ b, balanceOf (applyOps s ops).passports b ≤ 1 := by
  induction ops generalizing s with
  | nil => exact h
  | cons op ops ih =>
    exact ih (balance_le_one_applyOp h op)

theorem applyOps_append (s : BasePassState) (l1 l2 : List Op) :
    applyOps s (l1 ++ l2) = applyOps (applyOps s l1) l2 := by
  simp [applyOps]

/-! ## Concrete deployment scenario (spec §8's concrete scenario, used by
the witnesses): deployer `1`, `BasePass` contract `2`, attendee `3`,
event signer `4`, event organiser `5`. -/

/-- Freshly deployed system. -/
def exS0 : BasePassState := initState 1 2

/-- Attendee `3` has minted passport 1. -/
def exS1 : BasePassState := applyOp exS0 (.mintPassport 3)

/-- Organiser `5` has additionally registered event 1 with signer `4`
(at time 4000, past the cooldown on the zero-initialised tracker). -/
def exS2 : BasePassState := applyOp exS1 (.createEvent 5 "E" "" "" 4 4000)

/-- Signer `4`'s signature over `(eventId 1, nonce 7, expiration 5000,
chainId 9)`. -/
def exSig : Sig := ⟨(1, 7, 5000, 9), 4⟩

/-- Attendee `3` has additionally claimed the event-1 stamp with `exSig`
at time 4500. -/
def exS3 : BasePassState := applyOp exS2 (.claimStamp 3 1 1 7 5000 exSig 4500 9)

/-- Organiser `5`'s last event creation was at time 100000. -/
def exRL : BasePassState := applyOp exS0 (.createEvent 5 "A" "" "" 4 100000)

/-! ## The claims -/

/-- C10: `hasStamp(tokenId, eventId)` raises `ERC721NonexistentToken`
(rather than returning `false`) exactly when `tokenId` is not a minted
passport, because it first resolves the passport's owner via `ownerOf`;
for every minted passport it returns whether that passport's owner holds
a stamp for `eventId`. -/
theorem C10_hasStamp_requires_minted (s : BasePassState) (tokenId eventId : Nat) :
    ((hasStamp s tokenId eventId).isOk = true ↔
      (lookupOwner s.passports tokenId).isSome = true) ∧
    (lookupOwner s.passports tokenId = none →
      hasStamp s tokenId eventId = .error "ERC721NonexistentToken") ∧
    (∀ o, lookupOwner s.passports tokenId = some o →
      hasStamp s tokenId eventId =
        .ok (hasStampForEvent s.stampContract.stamps o eventId)) := by
  unfold hasStamp
  rcases h : lookupOwner s.passports tokenId with _ | o <;>
    simp [h, Except.isOk, Except.toBool]

/-- C10 witness: in the concrete scenario, token 1 is a minted passport
and resolves to its owner's stamp set, while token 2 is unknown and the
lookup raises. -/
theorem C10_hasStamp_requires_minted_witness :
    hasStamp exS3 2 1 = .error "ERC721NonexistentToken" ∧
    hasStamp exS3 1 1 = .ok true :=
  ⟨(C10_hasStamp_requires_minted exS3 2 1).2.1 (by decide),
   by
    have h := (C10_hasStamp_requires_minted exS3 1 1).2.2 3 (by decide)
    rw [h]
    decide⟩

/-- C8: `createEvent` succeeds exactly when the signer is non-zero, the
name is 1–100 bytes, the description is at most 500 bytes and the
caller's cooldown has elapsed; on success it stores the new `Event`
record under the auto-incremented id (1 for the first event), returns
that id and emits `EventCreated(eventId, name, signer)`; on failure the
state is untouched. -/
theorem C8_createEvent_spec (s : BasePassState) (caller : Address)
    (name description iconUrl : String) (signer : Address) (now : Nat) :
    ((createEvent s caller name description iconUrl signer now).isOk = true ↔
      (lastCreation s.lastEventCreation caller + EVENT_COOLDOWN ≤ now ∧
       signer ≠ 0 ∧ 1 ≤ strLen name ∧ strLen name ≤ 100 ∧
       strLen description ≤ 500)) ∧
    (∀ s' i, createEvent s caller name description iconUrl signer now = .ok (s', i) →
      i = s.eventIdCounter ∧ s'.eventIdCounter = i + 1 ∧
      findEvent s'.events i = some ⟨i, name, description, iconUrl, signer⟩ ∧
      s'.log = .EventCreated i name signer :: s.log) ∧
    (∀ e, createEvent s caller name description iconUrl signer now = .error e →
      applyOp s (.createEvent caller name description iconUrl signer now) = s) ∧
    (∀ d a s' i,
      createEvent (initState d a) caller name description iconUrl signer now =
        .ok (s', i) → i = 1) := by
  refine ⟨createEvent_isOk_iff s caller signer name description iconUrl now, ?_, ?_, ?_⟩
  · intro s' i h
    obtain ⟨hi, hc, hev, _, hlog, _⟩ := createEvent_ok h
    subst hi
    refine ⟨rfl, hc, ?_, hlog⟩
    rw [hev]
    unfold findEvent
    simp
  · intro e h
    simp [applyOp, h]
  · intro d a s' i h
    obtain ⟨hi, _⟩ := createEvent_ok h
    simpa [initState] using hi

/-- C8 witness: the concrete first creation validates and yields id 1
with the `EventCreated` notification. -/
theorem C8_createEvent_spec_witness :
    (createEvent exS1 5 "E" "" "" 4 4000).isOk = true ∧
    findEvent exS2.events 1 = some ⟨1, "E", "", "", 4⟩ := by
  constructor
  · exact (C8_createEvent_spec exS1 5 "E" "" "" 4 4000).1.mpr (by decide)
  · have h := (C8_createEvent_spec exS1 5 "E" "" "" 4 4000).2.1
      exS2 1 (by decide)
    exact h.2.2.1

/-- C7 (amended): a `createEvent` call strictly inside the 3600-second
cooldown fails with the fixed `RateLimited` message (which carries no
remaining-time figure), a call at or after cooldown expiry with valid
inputs succeeds, and the remaining cooldown is derivable without
mutation from the public `lastEventCreation` getter and the
`EVENT_COOLDOWN` constant. -/
theorem C7_rate_limit (s : BasePassState) (caller : Address)
    (name description iconUrl : String) (signer : Address) (now : Nat) :
    (now < lastCreation s.lastEventCreation caller + EVENT_COOLDOWN →
      createEvent s caller name description iconUrl signer now =
        .error "Rate limit: wait 1 hour between creating events") ∧
    (lastCreation s.lastEventCreation caller + EVENT_COOLDOWN ≤ now →
      signer ≠ 0 → 0 < strLen name → strLen name ≤ 100 →
      strLen description ≤ 500 →
      (createEvent s caller name description iconUrl signer now).isOk = true) ∧
    remainingCooldown s caller now =
      lastCreation s.lastEventCreation caller + EVENT_COOLDOWN - now := by
  refine ⟨?_, ?_, rfl⟩
  · intro h
    unfold createEvent
    rw [if_pos h]
  · intro h1 h2 h3 h4 h5
    exact (createEvent_isOk_iff s caller signer name description iconUrl now).mpr
      ⟨h1, h2, h3, h4, h5⟩

/-- C7 counterexample: after a creation at t=100000, the rejections at
t=101800 (1800 s remaining) and t=103599 (1 s remaining) are the *same*
fixed value — the rejection does not surface the remaining cooldown
time, contrary to the claim. -/
theorem C7_rate_limit_counterexample :
    createEvent exRL 5 "B" "" "" 4 101800 =
      .error "Rate limit: wait 1 hour between creating events" ∧
    createEvent exRL 5 "B" "" "" 4 103599 =
      .error "Rate limit: wait 1 hour between creating events" ∧
    remainingCooldown exRL 5 101800 = 1800 ∧
    remainingCooldown exRL 5 103599 = 1 := by decide

/-- C7 witness: creations at t=100000 and t=101800 — the second fails
rate-limited; at t=103601 (3601 s after) it succeeds. -/
theorem C7_rate_limit_witness :
    createEvent exRL 5 "C" "" "" 4 101800 =
      .error "Rate limit: wait 1 hour between creating events" ∧
    (createEvent exRL 5 "C" "" "" 4 103601).isOk = true :=
  ⟨(C7_rate_limit exRL 5 "C" "" "" 4 101800).1 (by decide),
   (C7_rate_limit exRL 5 "C" "" "" 4 103601).2.1 (by decide) (by decide)
     (by decide) (by decide) (by decide)⟩

/-- C6: the expiration check. A claim is rejected with `Expired` exactly
when the checks before it pass and the current time exceeds the
payload's `expiration`; at the boundary `now = expiration` the check
passes; `expiration = now − 1` fails with `Expired` whatever the
signature; `expiration = now + 3600` succeeds when otherwise valid. -/
theorem C6_expiration (s : BasePassState) (caller : Address)
    (tokenId eventId nonce expiration : Nat) (signature : Sig)
    (now chainId : Nat) :
    (claimStamp s caller tokenId eventId nonce expiration signature now chainId =
        .error "Signature expired" ↔
      preClaimChecks s caller tokenId eventId nonce ∧ expiration < now) ∧
    (expiration = now →
      claimStamp s caller tokenId eventId nonce expiration signature now chainId ≠
        .error "Signature expired") ∧
    (expiration + 1 = now → preClaimChecks s caller tokenId eventId nonce →
      claimStamp s caller tokenId eventId nonce expiration signature now chainId =
        .error "Signature expired") ∧
    (∀ ev, preClaimChecks s caller tokenId eventId nonce →
      findEvent s.events eventId = some ev →
      recover (eventId, nonce, now + 3600, chainId) signature = ev.signer →
      s.selfAddr ∈ s.stampContract.minters → caller ≠ 0 →
      lookupStamp s.stampContract.stamps s.stampContract.tokenIdCounter = none →
      (claimStamp s caller tokenId eventId nonce (now + 3600) signature now
        chainId).isOk = true) := by
  refine ⟨claimStamp_expired_iff s caller tokenId eventId nonce expiration
    signature now chainId, ?_, ?_, ?_⟩
  · intro hb hc
    have := ((claimStamp_expired_iff s caller tokenId eventId nonce expiration
      signature now chainId).mp hc).2
    omega
  · intro hb hpre
    exact claimStamp_expired hpre (by omega)
  · intro ev hpre hev hsig hrole hnz hfresh
    exact claimStamp_success hpre.1 hev hpre.2.2.1 hpre.2.2.2 (by omega) hsig
      hrole hnz hfresh

/-- C5: after a principal's `mintPassport` succeeds on any reachable
state, every later `mintPassport` by the same principal fails with
`AlreadyHasIdentity` ("Already owns a passport"), and in every reachable
state each principal holds at most one passport. -/
theorem C5_single_identity (deployer selfAddr : Address) (ops : List Op)
    (caller : Address) :
    (∀ s', mintPassport (applyOps (initState deployer selfAddr) ops) caller =
        .ok s' →
      ∀ more, mintPassport (applyOps s' more) caller =
        .error "Already owns a passport") ∧
    (∀ a, balanceOf (applyOps (initState deployer selfAddr) ops).passports a
      ≤ 1) := by
  constructor
  · intro s' h more
    obtain ⟨hp, _⟩ := mintPassport_ok h
    have hone : 0 < balanceOf s'.passports caller := by
      rw [hp, balanceOf_cons]
      simp
    have hmono := balance_mono_applyOps s' more caller
    exact mintPassport_already (by omega)
  · exact balance_le_one_applyOps (by intro b; simp [initState, balanceOf]) ops

/-- C5 witness: attendee `3` mints once, then a second attempt (after an
unrelated event creation) is rejected. -/
theorem C5_single_identity_witness :
    mintPassport (applyOps exS1 [Op.createEvent 5 "E" "" "" 4 4000]) 3 =
      .error "Already owns a passport" :=
  (C5_single_identity 1 2 [] 3).1 exS1 (by decide)
    [Op.createEvent 5 "E" "" "" 4 4000]

/-- C3: non-transferability. In every reachable state, extending the
history by any further operations (privileged callers included) leaves
every existing passport with the owner it was created with and every
existing stamp with its full record (owner included); and no transfer
of a passport or stamp ever succeeds, from any state whatsoever. -/
theorem C3_non_transferable (deployer selfAddr : Address) (ops more : List Op) :
    (∀ t o,
      lookupOwner (applyOps (initState deployer selfAddr) ops).passports t =
        some o →
      lookupOwner (applyOps (initState deployer selfAddr) (ops ++ more)).passports
        t = some o) ∧
    (∀ t st,
      lookupStamp
        (applyOps (initState deployer selfAddr) ops).stampContract.stamps t =
        some st →
      lookupStamp
        (applyOps (initState deployer selfAddr) (ops ++ more)).stampContract.stamps
        t = some st) ∧
    (∀ s caller fromAddr toAddr tokenId,
      (transferPassport s caller fromAddr toAddr tokenId).isOk = false) ∧
    (∀ sc caller fromAddr toAddr tokenId,
      (transferStamp sc caller fromAddr toAddr tokenId).isOk = false) := by
  have hF : Fresh (applyOps (initState deployer selfAddr) ops) :=
    fresh_applyOps (fresh_init deployer selfAddr) ops
  refine ⟨?_, ?_, transferPassport_not_ok, transferStamp_not_ok⟩
  · intro t o h
    rw [applyOps_append]
    exact owner_persists_applyOps hF h more
  · intro t st h
    rw [applyOps_append]
    exact stamp_persists_applyOps hF h more

/-- C3 witness: passport 1 (owner `3`) and stamp 1 (owner `3`) survive a
transfer attempt and a privileged direct mint. -/
theorem C3_non_transferable_witness :
    lookupOwner (applyOps (initState 1 2)
      ([Op.mintPassport 3] ++ [Op.transferPassport 3 3 6 1])).passports 1 =
      some 3 :=
  (C3_non_transferable 1 2 [Op.mintPassport 3] [Op.transferPassport 3 3 6 1]).1
    1 3 (by decide)

/-- Signer `4`'s signature over the same tuple with the later
expiration 8100 = 4500 + 3600. -/
def exSigLate : Sig := ⟨(1, 7, 8100, 9), 4⟩

/-- C6 witness: in the concrete scenario at time 4500, expiration 4499
fails with `Expired` even under a matching signature, and expiration
4500 + 3600 succeeds. -/
theorem C6_expiration_witness :
    claimStamp exS2 3 1 1 7 4499 exSig 4500 9 = .error "Signature expired" ∧
    (claimStamp exS2 3 1 1 7 (4500 + 3600) exSigLate 4500 9).isOk = true :=
  ⟨(C6_expiration exS2 3 1 1 7 4499 exSig 4500 9).2.2.1 (by decide) (by decide),
   (C6_expiration exS2 3 1 1 7 0 exSigLate 4500 9).2.2.2 ⟨1, "E", "", "", 4⟩
     (by decide) (by decide) (by decide) (by decide) (by decide) (by decide)⟩

/-- C2: atomic rejection. Whenever any check of `claimStamp` fails, the
operation aborts with that check's error (drawn from the checks'
rejection reasons) and the state is completely unchanged; only the fully
successful path mutates state, and it marks exactly the presented nonce
and appends exactly one stamp. -/
theorem C2_atomic_rejection (s : BasePassState) (caller : Address)
    (tokenId eventId nonce expiration : Nat) (signature : Sig)
    (now chainId : Nat) :
    (∀ e, claimStamp s caller tokenId eventId nonce expiration signature now
        chainId = .error e →
      applyOp s (.claimStamp caller tokenId eventId nonce expiration signature
        now chainId) = s ∧
      e ∈ ["ERC721NonexistentToken", "Not passport owner",
           "Event does not exist", "Stamp already claimed",
           "Nonce already used", "Signature expired", "Invalid signature",
           "AccessControlUnauthorizedAccount", "ERC721InvalidReceiver",
           "EventStamp: stamps are non-transferable (soulbound)"]) ∧
    (∀ s', claimStamp s caller tokenId eventId nonce expiration signature now
        chainId = .ok s' →
      s'.usedNonces = nonce :: s.usedNonces ∧
      s'.stampContract.stamps =
        ⟨s.stampContract.tokenIdCounter, caller, eventId, tokenId, now⟩ ::
          s.stampContract.stamps ∧
      s'.passports = s.passports ∧ s'.events = s.events ∧
      s'.lastEventCreation = s.lastEventCreation) := by
  constructor
  · intro e h
    exact ⟨by simp [applyOp, h], claimStamp_error_mem h⟩
  · intro s' h
    obtain ⟨_, _, _, _, _, _, _, hn, hst, _, _, _, hp, hev, hlc, _⟩ :=
      claimStamp_ok h
    exact ⟨hn, hst, hp, hev, hlc⟩

/-- C2 witness: a claim against a fresh deployment fails the ownership
check and leaves the deployment state untouched. -/
theorem C2_atomic_rejection_witness :
    applyOp exS0 (.claimStamp 3 1 1 7 5000 exSig 4500 9) = exS0 :=
  ((C2_atomic_rejection exS0 3 1 1 7 5000 exSig 4500 9).1
    "ERC721NonexistentToken" (by decide)).1

/-- C4: the signature-verification condition. Once the five earlier
checks pass (and the commit environment is sound: the `BasePass` contract
holds `MINTER_ROLE`, the claimer is a real account and the stamp counter
is fresh), `claimStamp` commits exactly when the signer recovered from
the signature over the packed `(eventId, nonce, expiration, chainId)`
tuple equals the event's registered signer, and otherwise fails with
`InvalidSignature`; in particular a signature produced over any other
tuple — any single field altered, the chain id included — recovers a
non-signer and fails. -/
theorem C4_signature_verification (s : BasePassState) (caller : Address)
    (tokenId eventId nonce expiration : Nat) (now chainId : Nat)
    (ev : EventRec)
    (hov : lookupOwner s.passports tokenId = some caller)
    (hev : findEvent s.events eventId = some ev)
    (hdup : hasStampForEvent s.stampContract.stamps caller eventId = false)
    (hnonce : nonce ∉ s.usedNonces)
    (hexp : now ≤ expiration)
    (hrole : s.selfAddr ∈ s.stampContract.minters)
    (hnz : caller ≠ 0)
    (hfresh : lookupStamp s.stampContract.stamps s.stampContract.tokenIdCounter
      = none) :
    (∀ signature : Sig,
      ((claimStamp s caller tokenId eventId nonce expiration signature now
          chainId).isOk = true ↔
        recover (eventId, nonce, expiration, chainId) signature = ev.signer)) ∧
    (∀ signature : Sig,
      recover (eventId, nonce, expiration, chainId) signature ≠ ev.signer →
      claimStamp s caller tokenId eventId nonce expiration signature now
        chainId = .error "Invalid signature") ∧
    (∀ (m : ClaimMsg) (signerKey : Address),
      (eventId, nonce, expiration, chainId) ≠ m → ev.signer ≠ 0 →
      claimStamp s caller tokenId eventId nonce expiration ⟨m, signerKey⟩ now
        chainId = .error "Invalid signature") := by
  refine ⟨?_, ?_, ?_⟩
  · intro signature
    constructor
    · intro h
      by_contra hsig
      rw [claimStamp_invalidSig hov hev hdup hnonce hexp hsig] at h
      simp [Except.isOk, Except.toBool] at h
    · intro hsig
      exact claimStamp_success hov hev hdup hnonce hexp hsig hrole hnz hfresh
  · intro signature hsig
    exact claimStamp_invalidSig hov hev hdup hnonce hexp hsig
  · intro m signerKey hm hs
    refine claimStamp_invalidSig hov hev hdup hnonce hexp ?_
    unfold recover
    rw [if_neg hm]
    exact fun h => hs h.symm

/-- C4 witness: the correctly bound signature commits; the same key's
signature over the tuple with only the chain id changed (10 instead of
9) fails with `InvalidSignature`. -/
theorem C4_signature_verification_witness :
    (claimStamp exS2 3 1 1 7 5000 exSig 4500 9).isOk = true ∧
    claimStamp exS2 3 1 1 7 5000 ⟨(1, 7, 5000, 10), 4⟩ 4500 9 =
      .error "Invalid signature" :=
  ⟨((C4_signature_verification exS2 3 1 1 7 5000 4500 9 ⟨1, "E", "", "", 4⟩
      (by decide) (by decide) (by decide) (by decide) (by decide) (by decide)
      (by decide) (by decide)).1 exSig).mpr (by decide),
   (C4_signature_verification exS2 3 1 1 7 5000 4500 9 ⟨1, "E", "", "", 4⟩
      (by decide) (by decide) (by decide) (by decide) (by decide) (by decide)
      (by decide) (by decide)).2.2 (1, 7, 5000, 10) 4 (by decide) (by decide)⟩

/-- C1 (amended): exactly-once redemption. A successful `claimStamp`
creates exactly one stamp (for this claimer and event). Afterwards,
*every* further claim for the same (identity, event) pair by the owner —
including a replay of the identical already-committed payload, and any
different nonce — fails with `AlreadyClaimed` ("Stamp already claimed"),
because the duplicate-stamp check precedes the nonce check; and any
further claim presenting the consumed nonce whose ownership, event and
duplicate checks pass (any caller, any event) fails with `NonceReused`
("Nonce already used"). -/
theorem C1_exactly_once (s s' : BasePassState) (caller : Address)
    (tokenId eventId nonce expiration : Nat) (signature : Sig)
    (now chainId : Nat)
    (h : claimStamp s caller tokenId eventId nonce expiration signature now
      chainId = .ok s') :
    s'.stampContract.stamps =
      ⟨s.stampContract.tokenIdCounter, caller, eventId, tokenId, now⟩ ::
        s.stampContract.stamps ∧
    (∀ nonce2 expiration2 sig2 now2 chainId2,
      claimStamp s' caller tokenId eventId nonce2 expiration2 sig2 now2
        chainId2 = .error "Stamp already claimed") ∧
    (∀ caller2 tokenId2 eventId2 expiration2 sig2 now2 chainId2,
      lookupOwner s'.passports tokenId2 = some caller2 →
      (findEvent s'.events eventId2).isSome = true →
      hasStampForEvent s'.stampContract.stamps caller2 eventId2 = false →
      claimStamp s' caller2 tokenId2 eventId2 nonce expiration2 sig2 now2
        chainId2 = .error "Nonce already used") := by
  obtain ⟨hov, ⟨ev, hev, _⟩, _, _, _, _, _, hn, hst, _, _, _, hp, hevs, _⟩ :=
    claimStamp_ok h
  refine ⟨hst, ?_, ?_⟩
  · intro nonce2 expiration2 sig2 now2 chainId2
    apply claimStamp_alreadyClaimed
    · rw [hp]; exact hov
    · rw [hevs]; simp [hev]
    · rw [hst]; unfold hasStampForEvent; simp
  · intro caller2 tokenId2 eventId2 expiration2 sig2 now2 chainId2 hov2 hev2 hdup2
    apply claimStamp_nonceUsed hov2 hev2 hdup2
    rw [hn]
    exact List.mem_cons_self _ _

/-- C1 counterexample: in the concrete scenario, attendee `3` commits
the payload `(eventId 1, nonce 7, expiration 5000)` and then replays the
identical payload — the replay fails with "Stamp already claimed"
(`AlreadyClaimed`), not "Nonce already used" (`NonceReused`) as the
claim states, because the duplicate-stamp check runs before the nonce
check. -/
theorem C1_exactly_once_counterexample :
    claimStamp exS2 3 1 1 7 5000 exSig 4500 9 = .ok exS3 ∧
    claimStamp exS3 3 1 1 7 5000 exSig 4600 9 =
      .error "Stamp already claimed" ∧
    ("Stamp already claimed" : String) ≠ "Nonce already used" := by decide

/-- C1 witness: the committed concrete claim, then a later attempt with
a fresh nonce 8 on the same (identity, event) is rejected as already
claimed. -/
theorem C1_exactly_once_witness :
    claimStamp exS3 3 1 1 8 6000 exSig 4600 9 =
      .error "Stamp already claimed" :=
  (C1_exactly_once exS2 exS3 3 1 1 7 5000 exSig 4500 9 (by decide)).2.1
    8 6000 exSig 4600 9

/-- C9 (amended): exclusive mutation of the shared ledgers. The nonce
ledger changes only through a successful `claimStamp`; the stamp ledger
changes only through a successful `claimStamp` or through a *direct*
`mintStamp` call by a holder of `MINTER_ROLE` — and the deployer retains
that role from construction, so `claimStamp` is not the stamp ledger's
only mutator. -/
theorem C9_ledger_mutators (s : BasePassState) (op : Op) :
    ((applyOp s op).usedNonces ≠ s.usedNonces →
      ∃ caller tokenId eventId nonce expiration signature now chainId,
        op = .claimStamp caller tokenId eventId nonce expiration signature
          now chainId ∧
        (claimStamp s caller tokenId eventId nonce expiration signature now
          chainId).isOk = true) ∧
    ((applyOp s op).stampContract.stamps ≠ s.stampContract.stamps →
      (∃ caller tokenId eventId nonce expiration signature now chainId,
        op = .claimStamp caller tokenId eventId nonce expiration signature
          now chainId ∧
        (claimStamp s caller tokenId eventId nonce expiration signature now
          chainId).isOk = true) ∨
      (∃ caller toAddr eventId passportId now,
        op = .mintStampDirect caller toAddr eventId passportId now ∧
        caller ∈ s.stampContract.minters)) := by
  cases op with
  | mintPassport c =>
    rcases h : mintPassport s c with e | s'
    · exact ⟨fun hne => absurd (by simp [applyOp, h]) hne,
        fun hne => absurd (by simp [applyOp, h]) hne⟩
    · obtain ⟨_, _, _, hn, _, _, hsc, _⟩ := mintPassport_ok h
      exact ⟨fun hne => absurd (by simp [applyOp, h, hn]) hne,
        fun hne => absurd (by simp [applyOp, h, hsc]) hne⟩
  | createEvent c nm d i sg t =>
    rcases h : createEvent s c nm d i sg t with e | p
    · exact ⟨fun hne => absurd (by simp [applyOp, h]) hne,
        fun hne => absurd (by simp [applyOp, h]) hne⟩
    · obtain ⟨s', k⟩ := p
      obtain ⟨_, _, _, _, _, _, _, hn, hsc, _⟩ := createEvent_ok h
      exact ⟨fun hne => absurd (by simp [applyOp, h, hn]) hne,
        fun hne => absurd (by simp [applyOp, h, hsc]) hne⟩
  | claimStamp c tk e n x sg t ch =>
    rcases h : claimStamp s c tk e n x sg t ch with er | s'
    · exact ⟨fun hne => absurd (by simp [applyOp, h]) hne,
        fun hne => absurd (by simp [applyOp, h]) hne⟩
    · exact ⟨fun _ => ⟨c, tk, e, n, x, sg, t, ch, rfl, by rw [h]; rfl⟩,
        fun _ => Or.inl ⟨c, tk, e, n, x, sg, t, ch, rfl, by rw [h]; rfl⟩⟩
  | transferPassport c f r tk =>
    rcases h : transferPassport s c f r tk with er | s'
    · exact ⟨fun hne => absurd (by simp [applyOp, h]) hne,
        fun hne => absurd (by simp [applyOp, h]) hne⟩
    · have := transferPassport_not_ok s c f r tk
      rw [h] at this
      simp [Except.isOk, Except.toBool] at this
  | transferStamp c f r tk =>
    rcases h : transferStamp s.stampContract c f r tk with er | sc
    · exact ⟨fun hne => absurd (by simp [applyOp, h]) hne,
        fun hne => absurd (by simp [applyOp, h]) hne⟩
    · have := transferStamp_not_ok s.stampContract c f r tk
      rw [h] at this
      simp [Except.isOk, Except.toBool] at this
  | mintStampDirect c r e p t =>
    rcases h : mintStamp s.stampContract c r e p t with er | q
    · exact ⟨fun hne => absurd (by simp [applyOp, h]) hne,
        fun hne => absurd (by simp [applyOp, h]) hne⟩
    · obtain ⟨sc, k⟩ := q
      obtain ⟨_, _, _, _, _, hrole, _⟩ := mintStamp_ok h
      exact ⟨fun hne => absurd (by simp [applyOp, h]) hne,
        fun _ => Or.inr ⟨c, r, e, p, t, rfl, hrole⟩⟩
  | grantRole c role a =>
    rcases h : grantRole s.stampContract c role a with er | sc
    · exact ⟨fun hne => absurd (by simp [applyOp, h]) hne,
        fun hne => absurd (by simp [applyOp, h]) hne⟩
    · exact ⟨fun hne => absurd (by simp [applyOp, h]) hne,
        fun hne => absurd (by simp [applyOp, h, (grantRole_ok h).1]) hne⟩
  | revokeRole c role a =>
    rcases h : revokeRole s.stampContract c role a with er | sc
    · exact ⟨fun hne => absurd (by simp [applyOp, h]) hne,
        fun hne => absurd (by simp [applyOp, h]) hne⟩
    · exact ⟨fun hne => absurd (by simp [applyOp, h]) hne,
        fun hne => absurd (by simp [applyOp, h, (revokeRole_ok h).1]) hne⟩

/-- C9 counterexample: the deployer (address 1) holds `MINTER_ROLE` from
construction and creates a stamp by calling `mintStamp` directly on a
fresh deployment — an exposed operation other than `claimStamp`'s commit
step mutates the stamp ledger, contrary to the claim. -/
theorem C9_ledger_mutators_counterexample :
    (initState 1 2).stampContract.stamps = [] ∧
    (applyOp (initState 1 2)
      (.mintStampDirect 1 9 1 1 1000)).stampContract.stamps =
      [⟨1, 9, 1, 1, 1000⟩] ∧
    1 ∈ (initState 1 2).stampContract.minters := by decide

/-- C9 witness: the mutated-stamp-ledger hypothesis discharged on the
deployer's direct mint. -/
theorem C9_ledger_mutators_witness :
    (∃ caller tokenId eventId nonce expiration signature now chainId,
      Op.mintStampDirect 1 9 1 1 1000 =
        .claimStamp caller tokenId eventId nonce expiration signature now
          chainId ∧
      (claimStamp (initState 1 2) caller tokenId eventId nonce expiration
        signature now chainId).isOk = true) ∨
    (∃ caller toAddr eventId passportId now,
      Op.mintStampDirect 1 9 1 1 1000 =
        .mintStampDirect caller toAddr eventId passportId now ∧
      caller ∈ (initState 1 2).stampContract.minters) :=
  (C9_ledger_mutators (initState 1 2) (.mintStampDirect 1 9 1 1 1000)).2
    (by decide)

end BasePass
